import Mathlib

/-
Verification development for the anytype-friend client library.

Shallow embedding of the schema-validation and reconciliation layer
(src/relation.rs, src/object.rs, src/object_type.rs, src/prost_ext.rs,
src/space.rs).  Conventions used throughout:

* Rust `BTreeSet` is modelled as `Finset` (both are duplicate-free sets
  with decidable membership; iteration order is irrelevant to every
  property proved here).
* Rust `f64` payloads are carried opaquely: no verified property depends
  on floating-point arithmetic, so wire numbers are modelled as `Int`.
  `chrono::NaiveDateTime` is modelled by its UTC timestamp (an `Int`).
* Rust panics (`panic!`, `expect`, `assert!`, `todo!`) are modelled by an
  explicit `PanicOr.panic` constructor; `Result` is `Except`.
* Code generated from protobuf definitions (the `pb` module: enum
  discriminant numberings, the CID parser of the `cid` crate) is not part
  of the sources; functions depending on it take the missing conversion
  as an explicit argument.
-/

/-- Outcome of a Rust computation that can panic: either a normal return
or a panic carrying the panic message. -/
inductive PanicOr (α : Type) where
  | panic (msg : String)
  | ret (a : α)
deriving DecidableEq

/-- True exactly when the computation panicked. -/
def PanicOr.isPanic : PanicOr α → Bool
  | .panic _ => true
  | .ret _ => false

/-- True exactly when an `Except` is `ok`. -/
def exceptIsOk : Except ε α → Bool
  | .ok _ => true
  | .error _ => false

/-- `ObjectId` (src/object.rs): wraps a CID; modelled by the string
rendering of the CID, which is what crosses the wire. -/
structure ObjectId where
  cid : String
deriving DecidableEq

/-- `ObjectTypeId` (src/object_type.rs): newtype over `ObjectId`. -/
structure ObjectTypeId where
  toObjectId : ObjectId
deriving DecidableEq

/-- `RelationId` (src/relation.rs): newtype over `ObjectId`. -/
structure RelationId where
  toObjectId : ObjectId
deriving DecidableEq

/-- `RelationKey` (src/relation.rs): the stable wire field name of a
relation. -/
structure RelationKey where
  key : String
deriving DecidableEq

/-- `RelationFormat` (src/relation.rs lines 47-60). -/
inductive RelationFormat where
  | Text
  | Number
  | Select
  | MultiSelect
  | Date
  | FileOrMedia
  | Checkbox
  | Url
  | Email
  | Phone
  | Object (types : Finset ObjectTypeId)
deriving DecidableEq

/-- `RelationFormat::is_superset` (src/relation.rs lines 63-77): for two
Object formats, an empty left set is a wildcard, otherwise set
containment; every other pair compares by equality. -/
def RelationFormat.is_superset (self other : RelationFormat) : Bool :=
  match self, other with
  | .Object self_types, .Object other_types =>
      if self_types = ∅ then true else decide (other_types ⊆ self_types)
  | a, b => decide (a = b)

/-- Helper for stating claims: a format is "scalar" when it is not an
Object-reference format. -/
def RelationFormat.isScalar : RelationFormat → Bool
  | .Object _ => false
  | _ => true

/-- Helper for stating claims: the format the spec calls wildcard, an
Object-reference format with an empty allowed-type set. -/
def RelationFormat.isWildcard : RelationFormat → Bool
  | .Object types => decide (types = ∅)
  | _ => false

/-- Helper for stating claims: two formats are Object formats with the
right set contained in the left set. -/
def RelationFormat.objectSuperset : RelationFormat → RelationFormat → Bool
  | .Object self_types, .Object other_types => decide (other_types ⊆ self_types)
  | _, _ => false

/-- Wire value kinds of `prost_types::value::Kind`; a `prost_types::Value`
is an optional kind, a `prost_types::Struct` a field map (modelled as an
association list; the BTreeMap of prost keeps keys unique, which no proved
property depends on). -/
inductive Kind where
  | nullValue
  | numberValue (n : Int)
  | stringValue (s : String)
  | boolValue (b : Bool)
  | structValue (fields : List (String × Option Kind))
  | listValue (values : List (Option Kind))

/-- `prost_types::Struct` wrapped by `ProstStruct` (src/prost_ext.rs). -/
structure ProstStruct where
  fields : List (String × Option Kind)

/-- `Object` (src/object.rs lines 152-160), minus the `space` session
handle (a transport handle carrying no data relevant to any property). -/
structure ObjectM where
  id : ObjectId
  name : String
  ty : ObjectTypeId
  relations : ProstStruct

/-- `RelationValue` (src/relation.rs lines 206-220). -/
inductive RelationValue where
  | Text (s : String)
  | Number (n : Int)
  | Date (timestamp : Int)
  | Checkbox (b : Bool)
  | Url (s : String)
  | Email (s : String)
  | Phone (s : String)
  | Object (objects : List ObjectM)

/-- `RelationValue::format` (src/relation.rs lines 222-241): the inferred
format of a value; the Object case collects the current type id of each
referenced object into a set. -/
def RelationValue.format : RelationValue → RelationFormat
  | .Text _ => .Text
  | .Number _ => .Number
  | .Date _ => .Date
  | .Checkbox _ => .Checkbox
  | .Url _ => .Url
  | .Email _ => .Email
  | .Phone _ => .Phone
  | .Object objects => .Object (objects.map (fun object => object.ty)).toFinset

/-- `RelationSpec` (src/relation.rs lines 15-20). -/
structure RelationSpec where
  name : String
  format : RelationFormat
deriving DecidableEq

/-- `Relation` (src/relation.rs lines 277-283). -/
structure Relation where
  id : RelationId
  name : String
  relation_key : RelationKey
  format : RelationFormat
deriving DecidableEq

/-- `Relation::as_spec` (src/relation.rs lines 309-314). -/
def Relation.as_spec (self : Relation) : RelationSpec :=
  { name := self.name, format := self.format }

/-- `IncompatibleRelationValue` (src/relation.rs lines 262-265). -/
structure IncompatibleRelationValue where
  expected : RelationFormat
  received : RelationFormat

/-- `RelationDetail` (src/relation.rs lines 374-377): a validated
key/value pair ready for the wire. -/
structure RelationDetail where
  key : RelationKey
  value : RelationValue

/-- `Relation::validate` (src/relation.rs lines 316-333). -/
def Relation.validate (self : Relation) (value : RelationValue) :
    Except IncompatibleRelationValue RelationDetail :=
  let expected_format := self.format
  let received_format := value.format
  if expected_format.is_superset received_format then
    .ok { key := self.relation_key, value := value }
  else
    .error { expected := expected_format, received := received_format }

/-- `is_superset` is reflexive. -/
theorem is_superset_refl (a : RelationFormat) : a.is_superset a = true := by
  cases a with
  | Object types =>
      simp only [RelationFormat.is_superset]
      by_cases h : types = ∅ <;> simp [h]
  | _ => simp [RelationFormat.is_superset]

/-- Concrete object type id used in witnesses and counterexamples. -/
def tA : ObjectTypeId := ⟨⟨"bafyreiA"⟩⟩

/-- Concrete object type id used in witnesses and counterexamples. -/
def tB : ObjectTypeId := ⟨⟨"bafyreiB"⟩⟩

/-- Concrete object of type `tA` used in counterexamples. -/
def objA : ObjectM :=
  { id := ⟨"bafyObjA"⟩, name := "a", ty := tA, relations := ⟨[]⟩ }

/-- Concrete relation whose declared format is `Object {tA, tB}`. -/
def relAB : Relation :=
  { id := ⟨⟨"bafyRelAB"⟩⟩, name := "references", relation_key := ⟨"refs"⟩,
    format := .Object {tA, tB} }

/-- Concrete value whose inferred format is `Object {tA}`. -/
def valA : RelationValue := .Object [objA]

/-- Claim C2, counterexample: the claim demands
`is_superset (Object T) (Object (T ∪ U)) = false` for every nonempty `U`
disjoint from `T`; at `T = ∅`, `U = {tA}` the wildcard rule makes the
result `true` instead. -/
theorem C2_counterexample :
    ({tA} : Finset ObjectTypeId) ≠ ∅
    ∧ (∅ : Finset ObjectTypeId) ∩ {tA} = ∅
    ∧ (RelationFormat.Object ∅).is_superset (RelationFormat.Object (∅ ∪ {tA})) = true := by
  refine ⟨by decide, by decide, by decide⟩

/-- Claim C2 (amended: the third law additionally requires `T` nonempty,
since an empty `T` is the wildcard): `is_superset` is reflexive; an empty
Object format is a superset of every Object format; for nonempty `T` and
nonempty `U` disjoint from `T`, `Object T` is not a superset of
`Object (T ∪ U)`; on scalar formats `is_superset` is equality. -/
theorem C2_is_superset_laws :
    (∀ a : RelationFormat, a.is_superset a = true)
    ∧ (∀ S : Finset ObjectTypeId,
        (RelationFormat.Object ∅).is_superset (RelationFormat.Object S) = true)
    ∧ (∀ T U : Finset ObjectTypeId, U ≠ ∅ → T ∩ U = ∅ → T ≠ ∅ →
        (RelationFormat.Object T).is_superset (RelationFormat.Object (T ∪ U)) = false)
    ∧ (∀ a b : RelationFormat, a.isScalar = true → b.isScalar = true →
        (a.is_superset b = true ↔ a = b)) := by
  refine ⟨is_superset_refl, ?_, ?_, ?_⟩
  · intro S
    simp [RelationFormat.is_superset]
  · intro T U hU hdisj hT
    simp only [RelationFormat.is_superset, if_neg hT]
    rw [decide_eq_false_iff_not]
    intro hsub
    obtain ⟨u, hu⟩ := Finset.nonempty_iff_ne_empty.mpr hU
    have huT : u ∈ T := hsub (Finset.mem_union_right T hu)
    have huTU : u ∈ T ∩ U := Finset.mem_inter.mpr ⟨huT, hu⟩
    rw [hdisj] at huTU
    exact absurd huTU (Finset.not_mem_empty u)
  · intro a b ha hb
    cases a <;> cases b <;>
      simp_all [RelationFormat.isScalar, RelationFormat.is_superset]

/-- Witness for C2: the nonempty-extension law and the scalar law applied
at concrete formats. -/
theorem C2_is_superset_laws_witness :
    (RelationFormat.Object {tA}).is_superset
        (RelationFormat.Object ({tA} ∪ {tB})) = false
    ∧ (RelationFormat.Text.is_superset RelationFormat.Number = true
        ↔ RelationFormat.Text = RelationFormat.Number) :=
  ⟨C2_is_superset_laws.2.2.1 {tA} {tB} (by decide) (by decide) (by decide),
   C2_is_superset_laws.2.2.2 RelationFormat.Text RelationFormat.Number
     (by decide) (by decide)⟩

/-- Claim C1, counterexample: the claim demands that `validate` fail
whenever declared and inferred formats are unequal non-wildcard formats,
yet a declared `Object {tA, tB}` accepts an inferred `Object {tA}` (the
superset rule), so `validate` succeeds there. -/
theorem C1_counterexample :
    relAB.format ≠ valA.format
    ∧ relAB.format.isWildcard = false
    ∧ valA.format.isWildcard = false
    ∧ relAB.validate valA = .ok { key := ⟨"refs"⟩, value := valA } := by
  refine ⟨by decide, by decide, by decide, rfl⟩

/-- `is_superset` is false for unequal formats once the wildcard and
Object-containment escapes are ruled out. -/
theorem is_superset_false_of_ne (a b : RelationFormat) (hne : a ≠ b)
    (hwild : a.isWildcard = false) (hosub : a.objectSuperset b = false) :
    a.is_superset b = false := by
  cases a <;> cases b <;>
    first
      | exact absurd rfl hne
      | rfl
      | (simp only [RelationFormat.isWildcard, decide_eq_false_iff_not] at hwild
         simp only [RelationFormat.objectSuperset] at hosub
         simp only [RelationFormat.is_superset, if_neg hwild]
         exact hosub)

/-- Claim C1 (amended: the final clause holds only when additionally the
two formats are not Object formats with the declared type set containing
the inferred one): `validate` succeeds exactly when the declared format is
a superset of the inferred format, returning the relation key paired with
the value; on failure the error carries the declared format as expected
and the inferred format as received; `validate` against the own format of the value always succeeds; and `validate` fails for unequal formats whenever
the declared format is not a wildcard and does not Object-contain the
inferred one. -/
theorem C1_validate_correct :
    (∀ (r : Relation) (v : RelationValue),
        exceptIsOk (r.validate v) = r.format.is_superset v.format)
    ∧ (∀ (r : Relation) (v : RelationValue),
        r.format.is_superset v.format = true →
        r.validate v = .ok { key := r.relation_key, value := v })
    ∧ (∀ (r : Relation) (v : RelationValue),
        r.format.is_superset v.format = false →
        r.validate v = .error { expected := r.format, received := v.format })
    ∧ (∀ (id : RelationId) (name : String) (key : RelationKey) (v : RelationValue),
        (Relation.mk id name key v.format).validate v = .ok { key := key, value := v })
    ∧ (∀ (r : Relation) (v : RelationValue),
        r.format ≠ v.format →
        r.format.isWildcard = false →
        RelationFormat.objectSuperset r.format v.format = false →
        exceptIsOk (r.validate v) = false) := by
  have hok : ∀ (r : Relation) (v : RelationValue),
      r.format.is_superset v.format = true →
      r.validate v = .ok { key := r.relation_key, value := v } := by
    intro r v h
    simp [Relation.validate, h]
  have herr : ∀ (r : Relation) (v : RelationValue),
      r.format.is_superset v.format = false →
      r.validate v = .error { expected := r.format, received := v.format } := by
    intro r v h
    simp [Relation.validate, h]
  refine ⟨?_, hok, herr, ?_, ?_⟩
  · intro r v
    by_cases h : r.format.is_superset v.format = true
    · rw [hok r v h, h]
      rfl
    · rw [Bool.not_eq_true] at h
      rw [herr r v h, h]
      rfl
  · intro id name key v
    exact hok _ v (is_superset_refl v.format)
  · intro r v hne hwild hosub
    rw [herr r v (is_superset_false_of_ne r.format v.format hne hwild hosub)]
    rfl

/-- Witness for C1: the failure clauses applied at a Text relation given a
Number value. -/
theorem C1_validate_correct_witness :
    (Relation.mk ⟨⟨"bafyRelT"⟩⟩ "title" ⟨"titleKey"⟩ .Text).validate (.Number 3)
      = .error { expected := .Text, received := .Number }
    ∧ exceptIsOk ((Relation.mk ⟨⟨"bafyRelT"⟩⟩ "title" ⟨"titleKey"⟩ .Text).validate
        (.Number 3)) = false :=
  ⟨C1_validate_correct.2.2.1 _ _ (by decide),
   C1_validate_correct.2.2.2.2 _ (.Number 3) (by decide) (by decide) (by decide)⟩

/-- `ProstKind` (src/prost_ext.rs lines 122-130): the tag of a wire kind,
used in error reports. -/
inductive ProstKind where
  | Null
  | Number
  | String
  | Bool
  | Struct
  | List
deriving DecidableEq

/-- `From<&Kind> for ProstKind` (src/prost_ext.rs lines 132-145). -/
def kindToProstKind : Kind → ProstKind
  | .nullValue => .Null
  | .numberValue _ => .Number
  | .stringValue _ => .String
  | .boolValue _ => .Bool
  | .structValue _ => .Struct
  | .listValue _ => .List

/-- `ProstConversionError` (src/prost_ext.rs lines 160-169); the field
name of `MissingStructField` is kept (the source holds a static str).
The source spelling `IncorrecKind` is kept. -/
inductive ProstConversionError where
  | MissingStructField (field : String)
  | KindIsEmpty
  | IncorrecKind (expected received : ProstKind)
  | InvalidEnumValue (value : Int)
deriving DecidableEq

/-- `impl TryFromProst for String` (src/prost_ext.rs lines 41-53). -/
def stringTryFromProst : Kind → Except ProstConversionError String
  | .stringValue string => .ok string
  | kind => .error (.IncorrecKind .String (kindToProstKind kind))

/-- `impl TryFromProst for f64` (src/prost_ext.rs lines 55-67); the f64
payload is modelled as `Int`. -/
def numberTryFromProst : Kind → Except ProstConversionError Int
  | .numberValue number => .ok number
  | kind => .error (.IncorrecKind .Number (kindToProstKind kind))

/-- `impl TryFromProst for bool` (src/prost_ext.rs lines 69-81). -/
def boolTryFromProst : Kind → Except ProstConversionError Bool
  | .boolValue boolean => .ok boolean
  | kind => .error (.IncorrecKind .Bool (kindToProstKind kind))

/-- The `try_from_prost_iterator` macro body (src/prost_ext.rs lines
83-98), generic over the element decoder `dec` (the `T::try_from_prost` of Rust):
decodes a wire list element-wise, first failing on an empty element kind,
short-circuiting on the first error. -/
def listTryFromProst (dec : Kind → Except ProstConversionError α) :
    Kind → Except ProstConversionError (List α)
  | .listValue values =>
      values.mapM (fun value =>
        match value with
        | none => .error .KindIsEmpty
        | some kind => dec kind)
  | kind => .error (.IncorrecKind .List (kindToProstKind kind))

/-- `impl TryFromProst for BTreeSet<T>` (src/prost_ext.rs lines 111-120):
the list decode collected into a set. -/
def btreeSetTryFromProst [DecidableEq α] (dec : Kind → Except ProstConversionError α) :
    Kind → Except ProstConversionError (Finset α) :=
  fun kind => (listTryFromProst dec kind).map List.toFinset

/-- `BTreeMap::remove`: removes the binding of `field` and returns it
(`none` when absent). -/
def removeField (field : String) :
    List (String × Option Kind) → Option (Option Kind) × List (String × Option Kind)
  | [] => (none, [])
  | (k, v) :: rest =>
      if k = field then (some v, rest)
      else
        let r := removeField field rest
        (r.1, (k, v) :: r.2)

/-- Lookup of a field without removal (specification helper). -/
def lookupField (s : ProstStruct) (field : String) : Option (Option Kind) :=
  (s.fields.find? (fun p => p.1 = field)).map (fun p => p.2)

/-- `ProstStruct::take_inner` (src/prost_ext.rs lines 207-217): removes
the field (an error still leaves it removed), failing `MissingStructField`
when absent and `KindIsEmpty` when the slot carries no kind.  The `&mut
self` mutation is modelled by returning the updated struct. -/
def take_inner (s : ProstStruct) (field : String) :
    Except ProstConversionError Kind × ProstStruct :=
  match removeField field s.fields with
  | (none, fields) => (.error (.MissingStructField field), ⟨fields⟩)
  | (some none, fields) => (.error .KindIsEmpty, ⟨fields⟩)
  | (some (some kind), fields) => (.ok kind, ⟨fields⟩)

/-- `ProstStruct::take` (src/prost_ext.rs lines 219-224), generic over the
decoder `dec` (the generic `T::try_from_prost`). -/
def ProstStruct.take (dec : Kind → Except ProstConversionError α)
    (s : ProstStruct) (field : String) :
    Except ProstConversionError α × ProstStruct :=
  match take_inner s field with
  | (.error e, s2) => (.error e, s2)
  | (.ok kind, s2) => (dec kind, s2)

/-- `ProstStruct::take_optional` (src/prost_ext.rs lines 226-238). -/
def ProstStruct.take_optional (dec : Kind → Except ProstConversionError α)
    (s : ProstStruct) (field : String) :
    Except ProstConversionError (Option α) × ProstStruct :=
  match take_inner s field with
  | (.ok kind, s2) => ((dec kind).map some, s2)
  | (.error (.MissingStructField _), s2) => (.ok none, s2)
  | (.error e, s2) => (.error e, s2)

/-- `ProstStruct::take_enum` (src/prost_ext.rs lines 240-247), generic
over the `TryFrom<i32>` conversion of the enum (generated protobuf code, not
part of the sources). -/
def ProstStruct.take_enum (tryFrom : Int → Option ε) (s : ProstStruct) (field : String) :
    Except ProstConversionError ε × ProstStruct :=
  match ProstStruct.take numberTryFromProst s field with
  | (.error e, s2) => (.error e, s2)
  | (.ok number, s2) =>
      match tryFrom number with
      | some e => (.ok e, s2)
      | none => (.error (.InvalidEnumValue number), s2)

/-- Decoding of one optional wire slot: empty slots fail `KindIsEmpty`. -/
def decodeSlot (dec : Kind → Except ProstConversionError α) :
    Option Kind → Except ProstConversionError α
  | none => .error .KindIsEmpty
  | some kind => dec kind

/-- When the field is absent, `removeField` leaves the bag unchanged. -/
theorem removeField_absent (field : String) (fields : List (String × Option Kind))
    (h : fields.find? (fun p => p.1 = field) = none) :
    removeField field fields = (none, fields) := by
  induction fields with
  | nil => rfl
  | cons p rest ih =>
      rw [List.find?_cons] at h
      cases hp : decide (p.1 = field) with
      | true =>
          rw [hp] at h
          exact absurd h (by simp)
      | false =>
          rw [hp] at h
          have hne : ¬p.1 = field := of_decide_eq_false hp
          cases p with
          | mk k v =>
              simp only [removeField, if_neg hne, ih h]

/-- When the field is present, `removeField` returns the value of the first
matching binding. -/
theorem removeField_present (field : String) (fields : List (String × Option Kind))
    (p : String × Option Kind) (h : fields.find? (fun q => q.1 = field) = some p) :
    (removeField field fields).1 = some p.2 := by
  induction fields with
  | nil => simp at h
  | cons q rest ih =>
      rw [List.find?_cons] at h
      cases hq : decide (q.1 = field) with
      | true =>
          rw [hq] at h
          have hqp : q = p := by simpa using h
          subst hqp
          have hkey : q.1 = field := of_decide_eq_true hq
          cases q with
          | mk k v2 =>
              simp only at hkey
              simp [removeField, hkey]
      | false =>
          rw [hq] at h
          have hne : ¬q.1 = field := of_decide_eq_false hq
          cases q with
          | mk k v2 =>
              simp only [removeField, if_neg hne]
              exact ih h

/-- Behaviour of `take` and `take_optional` by field presence. -/
theorem take_take_optional_spec (dec : Kind → Except ProstConversionError α)
    (s : ProstStruct) (field : String) :
    (lookupField s field = none →
        ProstStruct.take dec s field = (.error (.MissingStructField field), s)
        ∧ ProstStruct.take_optional dec s field = (.ok none, s))
    ∧ (∀ v : Option Kind, lookupField s field = some v →
        ProstStruct.take dec s field
          = (decodeSlot dec v, ⟨(removeField field s.fields).2⟩)
        ∧ ProstStruct.take_optional dec s field
          = ((decodeSlot dec v).map some, ⟨(removeField field s.fields).2⟩)) := by
  constructor
  · intro h
    have hf : s.fields.find? (fun p => p.1 = field) = none := by
      unfold lookupField at h
      exact Option.map_eq_none.mp h
    have hr := removeField_absent field s.fields hf
    constructor
    · simp only [ProstStruct.take, take_inner, hr]
    · simp only [ProstStruct.take_optional, take_inner, hr]
  · intro v h
    have hf : ∃ p, s.fields.find? (fun p => p.1 = field) = some p ∧ p.2 = v := by
      unfold lookupField at h
      rcases Option.map_eq_some.mp h with ⟨p, hp, hpv⟩
      exact ⟨p, hp, hpv⟩
    rcases hf with ⟨p, hp, hpv⟩
    have hfst : (removeField field s.fields).1 = some v := by
      rw [← hpv]
      exact removeField_present field s.fields p hp
    cases hrf : removeField field s.fields with
    | mk r1 r2 =>
        rw [hrf] at hfst
        simp only at hfst
        subst hfst
        cases v with
        | none =>
            constructor <;>
              simp [ProstStruct.take, ProstStruct.take_optional, take_inner, hrf,
                decodeSlot, Except.map]
        | some kind =>
            constructor
            · simp only [ProstStruct.take, take_inner, hrf, decodeSlot]
            · simp only [ProstStruct.take_optional, take_inner, hrf, decodeSlot]

/-- Claim C9: `take` fails `MissingField(field)` and leaves the bag
unchanged when the field is absent; when the field is present it removes
it and decodes the removed slot (an empty slot failing `KindIsEmpty`, any
other decode outcome surfacing unchanged); `take_optional` behaves
identically to `take` except that absence yields `Ok(none)` — all other
outcomes, including wrong-kind errors, coincide. -/
theorem C9_take_take_optional (dec : Kind → Except ProstConversionError α)
    (s : ProstStruct) (field : String) :
    (lookupField s field = none →
        ProstStruct.take dec s field = (.error (.MissingStructField field), s)
        ∧ ProstStruct.take_optional dec s field = (.ok none, s))
    ∧ (∀ v : Option Kind, lookupField s field = some v →
        ProstStruct.take dec s field
          = (decodeSlot dec v, ⟨(removeField field s.fields).2⟩)
        ∧ ProstStruct.take_optional dec s field
          = ((decodeSlot dec v).map some, ⟨(removeField field s.fields).2⟩)) :=
  take_take_optional_spec dec s field

/-- Witness for C9: on a concrete document, `take` of an absent field
fails `MissingStructField` while the present field decodes; evaluated via
the equations of the claim. -/
theorem C9_take_take_optional_witness :
    ProstStruct.take boolTryFromProst ⟨[("a", some (.boolValue true))]⟩ "b"
      = (.error (.MissingStructField "b"), ⟨[("a", some (.boolValue true))]⟩)
    ∧ ProstStruct.take_optional boolTryFromProst ⟨[("a", some (.boolValue true))]⟩ "b"
      = (.ok none, ⟨[("a", some (.boolValue true))]⟩)
    ∧ ProstStruct.take boolTryFromProst ⟨[("a", some (.boolValue true))]⟩ "a"
      = (.ok true, ⟨[]⟩) :=
  ⟨((C9_take_take_optional boolTryFromProst ⟨[("a", some (.boolValue true))]⟩ "b").1 rfl).1,
   ((C9_take_take_optional boolTryFromProst ⟨[("a", some (.boolValue true))]⟩ "b").1 rfl).2,
   ((C9_take_take_optional boolTryFromProst ⟨[("a", some (.boolValue true))]⟩ "a").2
     (some (.boolValue true)) rfl).1⟩

/-- Map over a possibly-panicking result. -/
def PanicOr.map (f : α → β) : PanicOr α → PanicOr β
  | .panic m => .panic m
  | .ret a => .ret (f a)

/-- `pb::models::object_type::Layout` (generated protobuf code, not under
src): only the variants the sources name are modelled; the discriminant
numbering stays abstract, so `TryFrom<i32>` conversions are passed as
arguments where needed. -/
inductive Layout where
  | Basic
  | Bookmark
  | ObjectType
  | Relation
deriving DecidableEq

/-- `pb::models::RelationFormat` (generated protobuf code, not under
src): the full variant list as matched by src/relation.rs lines 113-141. -/
inductive InternalRelationFormat where
  | Longtext
  | Shorttext
  | Number
  | Status
  | Tag
  | Date
  | File
  | Checkbox
  | Url
  | Email
  | Phone
  | Emoji
  | Object
  | Relations
deriving DecidableEq

/-- `RelationFormat::from_internal` (src/relation.rs lines 113-141):
panics on `Emoji` and `Relations`; an absent object-type set defaults to
the empty set. -/
def RelationFormat.from_internal (internal : InternalRelationFormat)
    (object_types : Option (Finset ObjectTypeId)) : PanicOr RelationFormat :=
  match internal with
  | .Longtext => .ret .Text
  | .Shorttext => .ret .Text
  | .Number => .ret .Number
  | .Status => .ret .Select
  | .Tag => .ret .MultiSelect
  | .Date => .ret .Date
  | .File => .ret .FileOrMedia
  | .Checkbox => .ret .Checkbox
  | .Url => .ret .Url
  | .Email => .ret .Email
  | .Phone => .ret .Phone
  | .Emoji => .panic "Creating Emoji formatted relations is not supported by AnyType apps as of v0.39.0"
  | .Object => .ret (.Object (object_types.getD ∅))
  | .Relations => .panic "Creating Relations formatted relation is not supported by AnyType apps as of v0.39.0"

/-- `impl TryFromProst for ObjectId` (src/object.rs lines 39-48): decodes
a string then parses it as a CID, panicking (an `expect`) when the parse
fails.  The CID parser lives in the external `cid` crate, so validity is
passed in as `cidValid`. -/
def ObjectId.try_from_prost (cidValid : String → Bool) (kind : Kind) :
    PanicOr (Except ProstConversionError ObjectId) :=
  match stringTryFromProst kind with
  | .error e => .ret (.error e)
  | .ok string =>
      if cidValid string then .ret (.ok ⟨string⟩)
      else .panic "ObjectIds are always valid CID with 32 bytes"

/-- `impl TryFromProst for RelationId` (src/relation.rs lines 178-184). -/
def RelationId.try_from_prost (cidValid : String → Bool) (kind : Kind) :
    PanicOr (Except ProstConversionError RelationId) :=
  (ObjectId.try_from_prost cidValid kind).map (fun r => r.map RelationId.mk)

/-- `impl TryFromProst for ObjectTypeId` (src/object_type.rs lines 52-58). -/
def ObjectTypeId.try_from_prost (cidValid : String → Bool) (kind : Kind) :
    PanicOr (Except ProstConversionError ObjectTypeId) :=
  (ObjectId.try_from_prost cidValid kind).map (fun r => r.map ObjectTypeId.mk)

/-- `impl TryFromProst for RelationKey` (src/relation.rs lines 195-204). -/
def RelationKey.try_from_prost (kind : Kind) :
    Except ProstConversionError RelationKey :=
  (stringTryFromProst kind).map RelationKey.mk

/-- `ProstStruct::take` when the field decoder itself may panic (as for
id fields whose CID parse is an `expect`). -/
def take_panicking (dec : Kind → PanicOr (Except ProstConversionError α))
    (s : ProstStruct) (field : String) :
    PanicOr (Except ProstConversionError α × ProstStruct) :=
  match take_inner s field with
  | (.error e, s2) => .ret (.error e, s2)
  | (.ok kind, s2) =>
      match dec kind with
      | .panic m => .panic m
      | .ret r => .ret (r, s2)

/-- `ProstStruct::take_optional` when the field decoder may panic. -/
def take_optional_panicking (dec : Kind → PanicOr (Except ProstConversionError α))
    (s : ProstStruct) (field : String) :
    PanicOr (Except ProstConversionError (Option α) × ProstStruct) :=
  match take_inner s field with
  | (.ok kind, s2) =>
      match dec kind with
      | .panic m => .panic m
      | .ret r => .ret (r.map some, s2)
  | (.error (.MissingStructField _), s2) => .ret (.ok none, s2)
  | (.error e, s2) => .ret (.error e, s2)

/-- Element-wise wire-list decode for a possibly-panicking element
decoder, short-circuiting on the first error (the collect of the Rust
iterator). -/
def listDecodeP (dec : Kind → PanicOr (Except ProstConversionError α)) :
    List (Option Kind) → PanicOr (Except ProstConversionError (List α))
  | [] => .ret (.ok [])
  | value :: rest =>
      match value with
      | none => .ret (.error .KindIsEmpty)
      | some kind =>
          match dec kind with
          | .panic m => .panic m
          | .ret (.error e) => .ret (.error e)
          | .ret (.ok a) =>
              match listDecodeP dec rest with
              | .panic m => .panic m
              | .ret (.error e) => .ret (.error e)
              | .ret (.ok rest2) => .ret (.ok (a :: rest2))

/-- The `try_from_prost_iterator` body for a possibly-panicking element
decoder. -/
def listTryFromProstP (dec : Kind → PanicOr (Except ProstConversionError α)) :
    Kind → PanicOr (Except ProstConversionError (List α))
  | .listValue values => listDecodeP dec values
  | kind => .ret (.error (.IncorrecKind .List (kindToProstKind kind)))

/-- `impl TryFromProst for BTreeSet<T>` for a possibly-panicking element
decoder. -/
def btreeSetTryFromProstP [DecidableEq α]
    (dec : Kind → PanicOr (Except ProstConversionError α)) (kind : Kind) :
    PanicOr (Except ProstConversionError (Finset α)) :=
  (listTryFromProstP dec kind).map (fun r => r.map List.toFinset)

/-- `impl TryFromProst for Relation` (src/relation.rs lines 336-364):
takes the layout (asserting it is the Relation layout — a panic on
mismatch), id, name, relationKey, relationFormat and the optional
relationFormatObjectTypes, then converts the internal format. -/
def Relation.try_from_prost (cidValid : String → Bool)
    (layoutTryFrom : Int → Option Layout)
    (formatTryFrom : Int → Option InternalRelationFormat)
    (input : ProstStruct) : PanicOr (Except ProstConversionError Relation) :=
  match ProstStruct.take_enum layoutTryFrom input "layout" with
  | (.error e, _) => .ret (.error e)
  | (.ok layout, v1) =>
      if layout = Layout.Relation then
        match take_panicking (RelationId.try_from_prost cidValid) v1 "id" with
        | .panic m => .panic m
        | .ret (.error e, _) => .ret (.error e)
        | .ret (.ok id, v2) =>
            match ProstStruct.take stringTryFromProst v2 "name" with
            | (.error e, _) => .ret (.error e)
            | (.ok name, v3) =>
                match ProstStruct.take RelationKey.try_from_prost v3 "relationKey" with
                | (.error e, _) => .ret (.error e)
                | (.ok relation_key, v4) =>
                    match ProstStruct.take_enum formatTryFrom v4 "relationFormat" with
                    | (.error e, _) => .ret (.error e)
                    | (.ok format, v5) =>
                        match take_optional_panicking
                            (btreeSetTryFromProstP (ObjectTypeId.try_from_prost cidValid))
                            v5 "relationFormatObjectTypes" with
                        | .panic m => .panic m
                        | .ret (.error e, _) => .ret (.error e)
                        | .ret (.ok object_types, _) =>
                            match RelationFormat.from_internal format object_types with
                            | .panic m => .panic m
                            | .ret fmt =>
                                .ret (.ok { id := id, name := name,
                                            relation_key := relation_key, format := fmt })
      else .panic "assertion failed: layout == Layout::Relation"

/-- Claim C8, counterexample: the decode layer is not panic-free —
`RelationFormat::from_internal` panics on the `Emoji` wire format. -/
theorem C8_counterexample :
    (RelationFormat.from_internal .Emoji none).isPanic = true := rfl

/-- Claim C8 (amended: the scalar and collection decoders and the take
family are total and surface WrongKind / EmptyKind / InvalidEnumValue as
`Result` values, but the decode layer is not panic-free:
`RelationFormat::from_internal` panics exactly on the `Emoji` and
`Relations` inputs, and `ObjectId::try_from_prost` panics exactly when
the CID parse of a decoded string fails). -/
theorem C8_decode_errors_as_values :
    (∀ s : String, stringTryFromProst (.stringValue s) = .ok s)
    ∧ (∀ kind : Kind, kindToProstKind kind ≠ .String →
        stringTryFromProst kind = .error (.IncorrecKind .String (kindToProstKind kind)))
    ∧ (∀ kind : Kind, kindToProstKind kind ≠ .Number →
        numberTryFromProst kind = .error (.IncorrecKind .Number (kindToProstKind kind)))
    ∧ (∀ kind : Kind, kindToProstKind kind ≠ .Bool →
        boolTryFromProst kind = .error (.IncorrecKind .Bool (kindToProstKind kind)))
    ∧ (∀ (dec : Kind → Except ProstConversionError Unit) (rest : List (Option Kind)),
        listTryFromProst dec (.listValue (none :: rest)) = .error .KindIsEmpty)
    ∧ (∀ (tryFrom : Int → Option Layout) (s : ProstStruct) (field : String)
          (n : Int) (s2 : ProstStruct),
        ProstStruct.take numberTryFromProst s field = (.ok n, s2) →
        tryFrom n = none →
        ProstStruct.take_enum tryFrom s field = (.error (.InvalidEnumValue n), s2))
    ∧ (∀ (i : InternalRelationFormat) (ot : Option (Finset ObjectTypeId)),
        (RelationFormat.from_internal i ot).isPanic
          = (decide (i = .Emoji) || decide (i = .Relations)))
    ∧ (∀ (cidValid : String → Bool) (s : String), cidValid s = false →
        (ObjectId.try_from_prost cidValid (.stringValue s)).isPanic = true)
    ∧ (∀ (cidValid : String → Bool) (s : String), cidValid s = true →
        ObjectId.try_from_prost cidValid (.stringValue s) = .ret (.ok ⟨s⟩)) := by
  refine ⟨fun s => rfl, ?_, ?_, ?_, ?_, ?_, ?_, ?_, ?_⟩
  · intro kind h
    cases kind <;> first | exact absurd rfl h | rfl
  · intro kind h
    cases kind <;> first | exact absurd rfl h | rfl
  · intro kind h
    cases kind <;> first | exact absurd rfl h | rfl
  · intro dec rest
    rfl
  · intro tryFrom s field n s2 htake htf
    simp only [ProstStruct.take_enum, htake, htf]
  · intro i ot
    cases i <;> rfl
  · intro cidValid s h
    simp [ObjectId.try_from_prost, stringTryFromProst, h, PanicOr.isPanic]
  · intro cidValid s h
    simp [ObjectId.try_from_prost, stringTryFromProst, h]

/-- Witness for C8: the wrong-kind, invalid-enum and CID-panic clauses at
concrete inputs. -/
theorem C8_decode_errors_as_values_witness :
    stringTryFromProst (.boolValue true) = .error (.IncorrecKind .String .Bool)
    ∧ ProstStruct.take_enum (fun _ => (none : Option Layout))
        ⟨[("layout", some (.numberValue 99))]⟩ "layout"
      = (.error (.InvalidEnumValue 99), ⟨[]⟩)
    ∧ (ObjectId.try_from_prost (fun _ => false) (.stringValue "x")).isPanic = true :=
  ⟨C8_decode_errors_as_values.2.1 (.boolValue true) (by decide),
   C8_decode_errors_as_values.2.2.2.2.2.1 (fun _ => none)
     ⟨[("layout", some (.numberValue 99))]⟩ "layout" 99 ⟨[]⟩ rfl rfl,
   C8_decode_errors_as_values.2.2.2.2.2.2.2.1 (fun _ => false) "x" rfl⟩

/-- True when the isHidden slot of a record, if present, is a proper
boolean (the `expect` in src/space.rs line 106 panics otherwise). -/
def isHiddenWellTyped (s : ProstStruct) : Bool :=
  match lookupField s "isHidden" with
  | none => true
  | some (some (.boolValue _)) => true
  | some _ => false

/-- True when a record carries `isHidden = true`. -/
def isHiddenTrue (s : ProstStruct) : Bool :=
  match lookupField s "isHidden" with
  | some (some (.boolValue b)) => b
  | _ => false

/-- The record with its isHidden binding removed (what
`fields.into_inner()` yields after the `take_optional`). -/
def removeIsHidden (s : ProstStruct) : ProstStruct :=
  ⟨(removeField "isHidden" s.fields).2⟩

/-- The hidden-entity visibility filter of `Space::search_objects`
(src/space.rs lines 97-110): per record, `take_optional::<bool>("isHidden")`
(panicking via `expect` when the slot is not a boolean), keeping the
record — minus the taken field — exactly when the flag is absent or
false. -/
def hidden_filter : List ProstStruct → PanicOr (List ProstStruct)
  | [] => .ret []
  | s :: rest =>
      match ProstStruct.take_optional boolTryFromProst s "isHidden" with
      | (.error _, _) => .panic "isHidden field is always a boolean"
      | (.ok hidden, s2) =>
          match hidden_filter rest with
          | .panic m => .panic m
          | .ret kept =>
              .ret (if hidden.getD false then kept else s2 :: kept)

/-- The decode phase of `Space::search_objects` (src/space.rs lines
111-117): maps the entity decoder over the kept records and silently
drops every failing decode (`filter_map(Result::ok)`). -/
def decode_filter (dec : ProstStruct → PanicOr (Except ProstConversionError α)) :
    List ProstStruct → PanicOr (List α)
  | [] => .ret []
  | s :: rest =>
      match dec s with
      | .panic m => .panic m
      | .ret (.error _) => decode_filter dec rest
      | .ret (.ok a) =>
          match decode_filter dec rest with
          | .panic m => .panic m
          | .ret rest2 => .ret (a :: rest2)

/-- The record post-processing of `Space::search_objects` (src/space.rs
lines 97-117): visibility filter, then decode with silent drop of decode
failures. -/
def search_process (dec : ProstStruct → PanicOr (Except ProstConversionError α))
    (records : List ProstStruct) : PanicOr (List α) :=
  match hidden_filter records with
  | .panic m => .panic m
  | .ret kept => decode_filter dec kept

/-- The successful decode of a record, if any. -/
def decodeOk (dec : ProstStruct → PanicOr (Except ProstConversionError α))
    (s : ProstStruct) : Option α :=
  match dec s with
  | .ret (.ok a) => some a
  | _ => none

/-- On records whose isHidden slots are well typed, the visibility filter
keeps exactly the non-hidden records, each minus its isHidden binding. -/
theorem hidden_filter_characterization (records : List ProstStruct)
    (h : ∀ s ∈ records, isHiddenWellTyped s = true) :
    hidden_filter records
      = .ret ((records.filter (fun s => ! isHiddenTrue s)).map removeIsHidden) := by
  induction records with
  | nil => rfl
  | cons s rest ih =>
      have hs : isHiddenWellTyped s = true := h s (List.mem_cons_self s rest)
      have hrest := ih (fun t ht => h t (List.mem_cons_of_mem s ht))
      simp only [hidden_filter, hrest]
      cases hlk : lookupField s "isHidden" with
      | none =>
          have htk := ((take_take_optional_spec boolTryFromProst s "isHidden").1 hlk).2
          have hht : isHiddenTrue s = false := by
            simp [isHiddenTrue, hlk]
          simp [htk, hht, List.filter_cons]
          have : removeIsHidden s = s := by
            have hf : s.fields.find? (fun p => p.1 = "isHidden") = none := by
              unfold lookupField at hlk
              exact Option.map_eq_none.mp hlk
            simp [removeIsHidden, (removeField_absent "isHidden" s.fields hf)]
          simp [this]
      | some v =>
          have htk := ((take_take_optional_spec boolTryFromProst s "isHidden").2 v hlk).2
          cases v with
          | none => simp [isHiddenWellTyped, hlk] at hs
          | some kind =>
              cases kind with
              | boolValue b =>
                  rw [htk]
                  have hht : isHiddenTrue s = b := by
                    simp [isHiddenTrue, hlk]
                  cases b with
                  | true =>
                      simp [decodeSlot, boolTryFromProst, Except.map, hht,
                        List.filter_cons]
                  | false =>
                      simp [decodeSlot, boolTryFromProst, Except.map, hht,
                        List.filter_cons, removeIsHidden]
              | nullValue => simp [isHiddenWellTyped, hlk] at hs
              | numberValue n => simp [isHiddenWellTyped, hlk] at hs
              | stringValue st => simp [isHiddenWellTyped, hlk] at hs
              | structValue fs => simp [isHiddenWellTyped, hlk] at hs
              | listValue vs => simp [isHiddenWellTyped, hlk] at hs

/-- The decode phase keeps exactly the successful decodes, in order,
when the decoder panics on none of the inputs. -/
theorem decode_filter_characterization
    (dec : ProstStruct → PanicOr (Except ProstConversionError α))
    (records : List ProstStruct)
    (h : ∀ s ∈ records, (dec s).isPanic = false) :
    decode_filter dec records = .ret (records.filterMap (decodeOk dec)) := by
  induction records with
  | nil => rfl
  | cons s rest ih =>
      have hs : (dec s).isPanic = false := h s (List.mem_cons_self s rest)
      have hrest := ih (fun t ht => h t (List.mem_cons_of_mem s ht))
      cases hd : dec s with
      | panic m => rw [hd] at hs; simp [PanicOr.isPanic] at hs
      | ret r =>
          cases r with
          | error e =>
              simp only [decode_filter, hd, hrest, List.filterMap_cons]
              simp [decodeOk, hd]
          | ok a =>
              simp only [decode_filter, hd, hrest, List.filterMap_cons]
              simp [decodeOk, hd]

/-- Concrete always-valid CID check for counterexamples. -/
def cidValid0 : String → Bool := fun _ => true

/-- Concrete layout conversion for counterexamples (no discriminant is
recognized; the record below fails before any discriminant is consulted). -/
def layoutTF0 : Int → Option Layout := fun _ => none

/-- Concrete relation-format conversion for counterexamples. -/
def formatTF0 : Int → Option InternalRelationFormat := fun _ => none

/-- The `Relation` searched-record decoder at the concrete conversions. -/
def relationDec0 : ProstStruct → PanicOr (Except ProstConversionError Relation) :=
  Relation.try_from_prost cidValid0 layoutTF0 formatTF0

/-- Claim C7, counterexample: the empty record is not hidden and fails to
decode as a `Relation` (its layout field is missing), yet
`search_objects` post-processing silently yields an empty result instead
of surfacing the decode error. -/
theorem C7_counterexample :
    isHiddenTrue ⟨[]⟩ = false
    ∧ relationDec0 ⟨[]⟩ = .ret (.error (.MissingStructField "layout"))
    ∧ search_process relationDec0 [⟨[]⟩] = .ret [] :=
  ⟨rfl, rfl, rfl⟩

/-- Claim C7 (amended: hidden records indeed never appear, but the
visibility filter is not the only silent drop — a non-hidden record whose
decode fails is silently discarded rather than surfacing an error):
whenever every isHidden slot is well typed and the decoder does not
panic, the search result is exactly the in-order successful decodes of
the non-hidden records. -/
theorem C7_search_process_hidden_and_silent_drop
    (dec : ProstStruct → PanicOr (Except ProstConversionError α))
    (records : List ProstStruct)
    (hwt : ∀ s ∈ records, isHiddenWellTyped s = true)
    (hnp : ∀ s : ProstStruct, (dec s).isPanic = false) :
    search_process dec records
      = .ret (((records.filter (fun s => ! isHiddenTrue s)).map removeIsHidden).filterMap
          (decodeOk dec)) := by
  unfold search_process
  rw [hidden_filter_characterization records hwt]
  exact decode_filter_characterization dec _ (fun s _ => hnp s)

/-- Total decoder used by the C7 witness. -/
def decNat0 : ProstStruct → PanicOr (Except ProstConversionError Nat) :=
  fun _ => .ret (.ok 0)

/-- Witness for C7: one hidden and one visible record, a total decoder —
the hidden record is dropped, the visible one decodes. -/
theorem C7_search_process_hidden_and_silent_drop_witness :
    search_process decNat0
        [⟨[("isHidden", some (Kind.boolValue true))]⟩, ⟨[]⟩] = PanicOr.ret [0] := by
  have h1 : ∀ s ∈ [(⟨[("isHidden", some (Kind.boolValue true))]⟩ : ProstStruct), ⟨[]⟩],
      isHiddenWellTyped s = true := by
    intro s hs
    rcases List.mem_cons.mp hs with rfl | hs2
    · rfl
    · rcases List.mem_singleton.mp hs2 with rfl
      rfl
  have h2 : ∀ s : ProstStruct, (decNat0 s).isPanic = false := fun _ => rfl
  rw [C7_search_process_hidden_and_silent_drop decNat0
      [⟨[("isHidden", some (Kind.boolValue true))]⟩, ⟨[]⟩] h1 h2]
  rfl

/-- `dataview::filter::Operator` (generated protobuf code): the sources
use only `And`. -/
inductive FilterOperator where
  | And
deriving DecidableEq

/-- `dataview::filter::Condition` (generated protobuf code): the sources
use only `In`, `Equal` and `Like`. -/
inductive FilterCondition where
  | In
  | Equal
  | Like
deriving DecidableEq

/-- `dataview::Filter` (generated protobuf code), restricted to the four
fields the sources set (the rest stay `Default::default()`); named
`DataviewFilter` here to avoid clashing with the Mathlib `Filter`. -/
structure DataviewFilter where
  operator : FilterOperator
  relation_key : String
  condition : FilterCondition
  value : Option Kind

/-- `UniqueKey` (src/unique_key.rs): a string token. -/
structure UniqueKey where
  key : String
deriving DecidableEq

/-- `ObjectType` (src/object_type.rs lines 118-124). -/
structure ObjectType where
  id : ObjectTypeId
  name : String
  unique_key : UniqueKey
  recommended_relations : Finset Relation

/-- `ObjectTypeSpec` (src/object_type.rs lines 13-17). -/
structure ObjectTypeSpec where
  name : String
  recommended_relations : Finset RelationSpec

/-- `ObjectTypeUnresolved` (src/object_type.rs lines 66-71). -/
structure ObjectTypeUnresolved where
  id : ObjectTypeId
  name : String
  unique_key : UniqueKey
  recommended_relations : Finset RelationId

/-- `ObjectSpec` (src/object.rs lines 50-53). -/
structure ObjectSpec where
  ty : ObjectType
  name : String

/-- The explicit filter list `Space::get_relation` passes to the search
(src/space.rs lines 154-163); the implicit space and layout filters that
`search_objects` appends (lines 45-72) are not restated here. -/
def get_relation_filters (relation_spec : RelationSpec) : List DataviewFilter :=
  [{ operator := .And, relation_key := "name", condition := .Equal,
     value := some (.stringValue relation_spec.name) }]

/-- The explicit filter list `Space::get_object_type` passes to the
search (src/space.rs lines 241-250). -/
def get_object_type_filters (object_type_spec : ObjectTypeSpec) : List DataviewFilter :=
  [{ operator := .And, relation_key := "name", condition := .Like,
     value := some (.stringValue object_type_spec.name) }]

/-- The explicit filter list `Space::get_object` passes to the search
(src/space.rs lines 354-373): a name filter and a declared-type filter. -/
def get_object_filters (object_spec : ObjectSpec) : List DataviewFilter :=
  [{ operator := .And, relation_key := "name", condition := .Like,
     value := some (.stringValue object_spec.name) },
   { operator := .And, relation_key := "type", condition := .Equal,
     value := some (.stringValue object_spec.ty.id.toObjectId.cid) }]

/-- Concrete object type used in counterexamples. -/
def otype0 : ObjectType :=
  { id := tA, name := "Page", unique_key := ⟨"ot-page"⟩, recommended_relations := ∅ }

/-- Claim C6, counterexample: the claim says the relation name filter is
a Like condition and the object name filter an Equal condition; in the
code the relation name filter is Equal and the object name filter is
Like. -/
theorem C6_counterexample :
    (get_relation_filters ⟨"Due date", .Date⟩).map (fun f => f.condition)
      = [FilterCondition.Equal]
    ∧ (get_object_filters ⟨otype0, "Thing"⟩).map (fun f => f.condition)
      = [FilterCondition.Like, FilterCondition.Equal]
    ∧ FilterCondition.Equal ≠ FilterCondition.Like :=
  ⟨rfl, rfl, by decide⟩

/-- Claim C6 (amended: the Relation search uses an Equal condition on the
name; the ObjectType search uses a Like condition on the name; the Object
search uses a Like condition on the name together with an Equal condition
on the declared type). -/
theorem C6_search_filter_conditions :
    (∀ spec : RelationSpec,
        (get_relation_filters spec).map (fun f => (f.relation_key, f.condition))
          = [("name", FilterCondition.Equal)])
    ∧ (∀ spec : ObjectTypeSpec,
        (get_object_type_filters spec).map (fun f => (f.relation_key, f.condition))
          = [("name", FilterCondition.Like)])
    ∧ (∀ spec : ObjectSpec,
        (get_object_filters spec).map (fun f => (f.relation_key, f.condition))
          = [("name", FilterCondition.Like), ("type", FilterCondition.Equal)])
    ∧ (∀ spec : RelationSpec,
        (get_relation_filters spec).map (fun f => f.value)
          = [some (.stringValue spec.name)])
    ∧ (∀ spec : ObjectSpec,
        (get_object_filters spec).map (fun f => f.value)
          = [some (.stringValue spec.name),
             some (.stringValue spec.ty.id.toObjectId.cid)]) :=
  ⟨fun _ => rfl, fun _ => rfl, fun _ => rfl, fun _ => rfl, fun _ => rfl⟩

/-- Structured model of the `tonic::Status` errors src/space.rs and
src/object.rs build: each `format!` message is modelled by a constructor
carrying its interpolated arguments. -/
inductive StatusErr where
  | relationFormatMismatch (name : String) (found requested : RelationFormat)
  | ambiguousRelation (name : String)
  | recommendedRelationsMismatch (name : String)
      (found requested : Finset RelationSpec)
  | ambiguousObjectType (name : String)
  | ambiguousObject (name : String)
  | incompatibleValue (expected received : RelationFormat)
  | backend (description : String)
deriving DecidableEq

/-- The decision logic of `Space::get_relation` (src/space.rs lines
165-185) on the list the name search returned: zero matches → none; one
match → exact format equality or a format-mismatch error naming the found
and requested formats; several matches → ambiguity error. -/
def get_relation_decide (relation_spec : RelationSpec) (relations : List Relation) :
    Except StatusErr (Option Relation) :=
  match relations with
  | [] => .ok none
  | [relation] =>
      if relation.format = relation_spec.format then
        .ok (some relation)
      else
        .error (.relationFormatMismatch relation.name relation.format
          relation_spec.format)
  | _ => .error (.ambiguousRelation relation_spec.name)

/-- The resolved recommended relations of an object type projected to
name+format pairs (src/space.rs lines 258-262). -/
def relationsSpecsOf (output : ObjectType) : Finset RelationSpec :=
  output.recommended_relations.image Relation.as_spec

/-- The decision logic of `Space::get_object_type` (src/space.rs lines
252-282) on the list the name search returned.  `slow_resolve` is not
under src/ (only its callers are); modelled from the spec: it fetches
each recommended RelationId via a follow-up query and yields the resolved
`ObjectType`, so the resolution is taken as the function argument
`resolve` (which may fail with a backend error). -/
def get_object_type_decide (object_type_spec : ObjectTypeSpec)
    (object_types : List ObjectTypeUnresolved)
    (resolve : ObjectTypeUnresolved → Except StatusErr ObjectType) :
    Except StatusErr (Option ObjectType) :=
  match object_types with
  | [] => .ok none
  | [object_type] =>
      match resolve object_type with
      | .error e => .error e
      | .ok output =>
          if relationsSpecsOf output = object_type_spec.recommended_relations then
            .ok (some output)
          else
            .error (.recommendedRelationsMismatch object_type_spec.name
              (relationsSpecsOf output) object_type_spec.recommended_relations)
  | _ => .error (.ambiguousObjectType object_type_spec.name)

/-- Claim C3: `get_relation` returns none on zero matches; on exactly one
match it succeeds exactly when the found format equals the requested
format (in particular superset compatibility, such as a wildcard Object
format against a narrower request, is not accepted), failing otherwise
with an error naming both formats; on several matches it fails as
ambiguous. -/
theorem C3_get_relation_decide (spec : RelationSpec) (relations : List Relation) :
    (relations = [] → get_relation_decide spec relations = .ok none)
    ∧ (∀ r : Relation, relations = [r] →
        (get_relation_decide spec relations = .ok (some r) ↔ r.format = spec.format)
        ∧ (r.format ≠ spec.format →
            get_relation_decide spec relations
              = .error (.relationFormatMismatch r.name r.format spec.format))
        ∧ (r.format.is_superset spec.format = true → r.format ≠ spec.format →
            exceptIsOk (get_relation_decide spec relations) = false))
    ∧ (2 ≤ relations.length →
        get_relation_decide spec relations = .error (.ambiguousRelation spec.name)) := by
  refine ⟨?_, ?_, ?_⟩
  · intro h
    subst h
    rfl
  · intro r h
    subst h
    refine ⟨?_, ?_, ?_⟩
    · constructor
      · intro hok
        by_contra hne
        simp [get_relation_decide, if_neg hne] at hok
      · intro heq
        simp [get_relation_decide, heq]
    · intro hne
      simp [get_relation_decide, if_neg hne]
    · intro _ hne
      simp [get_relation_decide, if_neg hne, exceptIsOk]
  · intro h
    match relations with
    | [] => simp at h
    | [r] => simp at h
    | r1 :: r2 :: rest => rfl

/-- Witness for C3: a single found Text relation against a Date request
fails with the format mismatch; two same-named relations are ambiguous. -/
theorem C3_get_relation_decide_witness :
    get_relation_decide ⟨"Due date", .Date⟩
        [Relation.mk ⟨⟨"bafyR1"⟩⟩ "Due date" ⟨"k1"⟩ .Text]
      = .error (.relationFormatMismatch "Due date" .Text .Date)
    ∧ get_relation_decide ⟨"Due date", .Date⟩
        [Relation.mk ⟨⟨"bafyR1"⟩⟩ "Due date" ⟨"k1"⟩ .Date,
         Relation.mk ⟨⟨"bafyR2"⟩⟩ "Due date" ⟨"k2"⟩ .Date]
      = .error (.ambiguousRelation "Due date") :=
  ⟨((C3_get_relation_decide ⟨"Due date", .Date⟩
        [Relation.mk ⟨⟨"bafyR1"⟩⟩ "Due date" ⟨"k1"⟩ .Text]).2.1
      (Relation.mk ⟨⟨"bafyR1"⟩⟩ "Due date" ⟨"k1"⟩ .Text) rfl).2.1 (by decide),
   (C3_get_relation_decide ⟨"Due date", .Date⟩
        [Relation.mk ⟨⟨"bafyR1"⟩⟩ "Due date" ⟨"k1"⟩ .Date,
         Relation.mk ⟨⟨"bafyR2"⟩⟩ "Due date" ⟨"k2"⟩ .Date]).2.2 (by decide)⟩

/-- Claim C4: `get_object_type` returns none on zero matches; on exactly
one match it resolves it and succeeds exactly when the resolved
recommended-relations set projected to name+format pairs equals the
requested set, any difference failing with an error reporting both sets;
several matches fail as ambiguous. -/
theorem C4_get_object_type_decide (spec : ObjectTypeSpec)
    (object_types : List ObjectTypeUnresolved)
    (resolve : ObjectTypeUnresolved → Except StatusErr ObjectType) :
    (object_types = [] → get_object_type_decide spec object_types resolve = .ok none)
    ∧ (∀ (t : ObjectTypeUnresolved) (output : ObjectType),
        object_types = [t] → resolve t = .ok output →
        (get_object_type_decide spec object_types resolve = .ok (some output)
          ↔ relationsSpecsOf output = spec.recommended_relations)
        ∧ (relationsSpecsOf output ≠ spec.recommended_relations →
            get_object_type_decide spec object_types resolve
              = .error (.recommendedRelationsMismatch spec.name
                  (relationsSpecsOf output) spec.recommended_relations)))
    ∧ (∀ (t : ObjectTypeUnresolved) (e : StatusErr),
        object_types = [t] → resolve t = .error e →
        get_object_type_decide spec object_types resolve = .error e)
    ∧ (2 ≤ object_types.length →
        get_object_type_decide spec object_types resolve
          = .error (.ambiguousObjectType spec.name)) := by
  refine ⟨?_, ?_, ?_, ?_⟩
  · intro h
    subst h
    rfl
  · intro t output h hres
    subst h
    constructor
    · constructor
      · intro hok
        by_contra hne
        simp [get_object_type_decide, hres, if_neg hne] at hok
      · intro heq
        simp [get_object_type_decide, hres, heq]
    · intro hne
      simp [get_object_type_decide, hres, if_neg hne]
  · intro t e h hres
    subst h
    simp [get_object_type_decide, hres]
  · intro h
    match object_types with
    | [] => simp at h
    | [t] => simp at h
    | t1 :: t2 :: rest => rfl

/-- Concrete relations A and B used in the C4 witness. -/
def relA : Relation := Relation.mk ⟨⟨"bafyRA"⟩⟩ "author" ⟨"kA"⟩ .Text

/-- Concrete relation used in the C4 witness. -/
def relB : Relation := Relation.mk ⟨⟨"bafyRB"⟩⟩ "url" ⟨"kB"⟩ .Url

/-- Concrete unresolved object type used in the C4 witness. -/
def otU0 : ObjectTypeUnresolved :=
  { id := tA, name := "Bookmark", unique_key := ⟨"ot-bookmark"⟩,
    recommended_relations := {relA.id, relB.id} }

/-- Concrete resolved object type (relations A and B) used in the C4
witness. -/
def otR0 : ObjectType :=
  { id := tA, name := "Bookmark", unique_key := ⟨"ot-bookmark"⟩,
    recommended_relations := {relA, relB} }

/-- Witness for C4: a found Bookmark type resolving to relations {A, B}
against a request for only {A} fails with the mismatch error reporting
both sets. -/
theorem C4_get_object_type_decide_witness :
    get_object_type_decide ⟨"Bookmark", {relA.as_spec}⟩ [otU0] (fun _ => .ok otR0)
      = .error (.recommendedRelationsMismatch "Bookmark"
          (relationsSpecsOf otR0) {relA.as_spec}) :=
  ((C4_get_object_type_decide ⟨"Bookmark", {relA.as_spec}⟩ [otU0]
      (fun _ => .ok otR0)).2.1 otU0 otR0 rfl rfl).2 (by decide)

/-- Backend state for the relation reconciliation scenario: the relation
records of the space plus a counter of create calls issued.  Modelled
from the spec: the backend is an external collaborator (§6); it evaluates
search filters over its records and persists created relations. -/
structure RelBackend where
  relations : List Relation
  create_count : Nat

/-- Modelled from the spec: the backend evaluating the `get_relation`
search (the name Equal filter of src/space.rs lines 154-163, under the
implicit space and layout filters) over the relations of the space. -/
def relation_search (b : RelBackend) (name : String) : List Relation :=
  b.relations.filter (fun r => r.name = name)

/-- `Space::get_relation` (src/space.rs lines 148-186) over the backend
model: search by name, then decide. -/
def get_relation_m (b : RelBackend) (spec : RelationSpec) :
    Except StatusErr (Option Relation) :=
  get_relation_decide spec (relation_search b spec.name)

/-- Modelled from the spec: the create-relation RPC creates a relation
carrying the requested name and format (the details document built from
`RelationSpec`, src/relation.rs lines 22-45) under a backend-issued fresh
id and relation key, persists it, and returns its details, which
`Space::create_relation` (src/space.rs lines 188-223) decodes back into a
`Relation`. -/
def create_relation_m (b : RelBackend) (spec : RelationSpec)
    (fresh_id : RelationId) (fresh_key : RelationKey) : Relation × RelBackend :=
  let relation : Relation :=
    { id := fresh_id, name := spec.name, relation_key := fresh_key,
      format := spec.format }
  (relation,
   { relations := b.relations ++ [relation], create_count := b.create_count + 1 })

/-- `Space::obtain_relation` (src/space.rs lines 225-233): get, then
create exactly when the get found nothing. -/
def obtain_relation_m (b : RelBackend) (spec : RelationSpec)
    (fresh_id : RelationId) (fresh_key : RelationKey) :
    Except StatusErr (Relation × RelBackend) :=
  match get_relation_m b spec with
  | .error e => .error e
  | .ok none => .ok (create_relation_m b spec fresh_id fresh_key)
  | .ok (some relation) => .ok (relation, b)

/-- The shared get-or-create shape of `Space::obtain_object_type`
(src/space.rs lines 338-346) and `Space::obtain_object` (lines 429-434):
the get outcome decides whether the create action runs against the
backend state. -/
def obtain_from (get : Except StatusErr (Option α)) (st : σ)
    (create : σ → Except StatusErr (α × σ)) : Except StatusErr (α × σ) :=
  match get with
  | .error e => .error e
  | .ok none => create st
  | .ok (some found) => .ok (found, st)

/-- Claim C5: each obtain is get composed with create — a found entity is
returned unchanged with no create issued, a create runs exactly when the
get returns none — and, against a backend whose create makes the
subsequent search find the created relation, two obtains with the same
spec return the same relation (hence the same RelationId) while the
create counter rises exactly once. -/
theorem C5_obtain_get_or_create :
    (∀ (b : RelBackend) (spec : RelationSpec) (i : RelationId) (k : RelationKey)
        (r : Relation),
        get_relation_m b spec = .ok (some r) →
        obtain_relation_m b spec i k = .ok (r, b))
    ∧ (∀ (b : RelBackend) (spec : RelationSpec) (i : RelationId) (k : RelationKey),
        get_relation_m b spec = .ok none →
        obtain_relation_m b spec i k = .ok (create_relation_m b spec i k))
    ∧ (∀ (σ α : Type) (st : σ) (create : σ → Except StatusErr (α × σ)) (found : α),
        obtain_from (.ok (some found)) st create = .ok (found, st))
    ∧ (∀ (σ α : Type) (st : σ) (create : σ → Except StatusErr (α × σ)),
        obtain_from (.ok none) st create = create st)
    ∧ (∀ (b : RelBackend) (spec : RelationSpec) (i₁ i₂ : RelationId)
        (k₁ k₂ : RelationKey),
        relation_search b spec.name = [] →
        ∃ (r : Relation) (b1 : RelBackend),
          obtain_relation_m b spec i₁ k₁ = .ok (r, b1)
          ∧ obtain_relation_m b1 spec i₂ k₂ = .ok (r, b1)
          ∧ r.id = i₁
          ∧ b1.create_count = b.create_count + 1) := by
  refine ⟨?_, ?_, fun σ α st create found => rfl, fun σ α st create => rfl, ?_⟩
  · intro b spec i k r h
    simp [obtain_relation_m, h]
  · intro b spec i k h
    simp [obtain_relation_m, h]
  · intro b spec i1 i2 k1 k2 h
    refine ⟨(create_relation_m b spec i1 k1).1, (create_relation_m b spec i1 k1).2,
      ?_, ?_, rfl, rfl⟩
    · have hget : get_relation_m b spec = .ok none := by
        simp [get_relation_m, h, get_relation_decide]
      simp [obtain_relation_m, hget]
    · have hsearch : relation_search (create_relation_m b spec i1 k1).2 spec.name
          = [(create_relation_m b spec i1 k1).1] := by
        simp only [create_relation_m, relation_search, List.filter_append]
        rw [relation_search] at h
        rw [h]
        simp
      have hget : get_relation_m (create_relation_m b spec i1 k1).2 spec
          = .ok (some (create_relation_m b spec i1 k1).1) := by
        unfold get_relation_m
        rw [hsearch]
        simp [get_relation_decide, create_relation_m]
      simp [obtain_relation_m, hget]

/-- Witness for C5: on the empty space, two obtains of the same Date
relation create once and return the created relation twice; a space
already holding the relation returns it unchanged. -/
theorem C5_obtain_get_or_create_witness :
    (∃ (r : Relation) (b1 : RelBackend),
        obtain_relation_m ⟨[], 0⟩ ⟨"Due date", .Date⟩ ⟨⟨"bafyI1"⟩⟩ ⟨"key1"⟩
          = .ok (r, b1)
        ∧ obtain_relation_m b1 ⟨"Due date", .Date⟩ ⟨⟨"bafyI2"⟩⟩ ⟨"key2"⟩
          = .ok (r, b1)
        ∧ r.id = ⟨⟨"bafyI1"⟩⟩
        ∧ b1.create_count = 0 + 1)
    ∧ obtain_relation_m
        ⟨[Relation.mk ⟨⟨"bafyR9"⟩⟩ "Due date" ⟨"k9"⟩ .Date], 3⟩
        ⟨"Due date", .Date⟩ ⟨⟨"bafyI3"⟩⟩ ⟨"key3"⟩
      = .ok (Relation.mk ⟨⟨"bafyR9"⟩⟩ "Due date" ⟨"k9"⟩ .Date,
             ⟨[Relation.mk ⟨⟨"bafyR9"⟩⟩ "Due date" ⟨"k9"⟩ .Date], 3⟩) :=
  ⟨C5_obtain_get_or_create.2.2.2.2 ⟨[], 0⟩ ⟨"Due date", .Date⟩
      ⟨⟨"bafyI1"⟩⟩ ⟨⟨"bafyI2"⟩⟩ ⟨"key1"⟩ ⟨"key2"⟩ rfl,
   C5_obtain_get_or_create.1
      ⟨[Relation.mk ⟨⟨"bafyR9"⟩⟩ "Due date" ⟨"k9"⟩ .Date], 3⟩
      ⟨"Due date", .Date⟩ ⟨⟨"bafyI3"⟩⟩ ⟨"key3"⟩
      (Relation.mk ⟨⟨"bafyR9"⟩⟩ "Due date" ⟨"k9"⟩ .Date) (by rfl)⟩

/-- `impl IntoProstValue for RelationValue` (src/relation.rs lines
243-260): strings as string values, numbers and timestamps as number
values, booleans as bool values, object lists as lists of id strings. -/
def RelationValue.into_prost : RelationValue → Kind
  | .Text s => .stringValue s
  | .Url s => .stringValue s
  | .Email s => .stringValue s
  | .Phone s => .stringValue s
  | .Number n => .numberValue n
  | .Date timestamp => .numberValue timestamp
  | .Checkbox b => .boolValue b
  | .Object objects => .listValue (objects.map (fun o => some (.stringValue o.id.cid)))

/-- `Object::get` (src/object.rs lines 184-247): reads the stored slot
under the relation key (absent slot or empty kind yields none) and
decodes it by the declared format of the relation; each decode failure is
an `expect` (a panic), the catch-all arm is `todo!()` (a panic), and an
Object-format slot decodes the id list (its CID parses panicking via
`expect` on failure) and fetches the referenced objects through the
backend read `fetchObjects`.  The chrono timestamp conversion of the Date
arm is modelled as total; its out-of-range `expect` is a panic no claim
exercises. -/
def Object.get (cidValid : String → Bool) (fetchObjects : List ObjectId → List ObjectM)
    (self : ObjectM) (key : Relation) : PanicOr (Option RelationValue) :=
  match lookupField self.relations key.relation_key.key with
  | none => .ret none
  | some none => .ret none
  | some (some kind) =>
      match key.format with
      | .Text =>
          match kind with
          | .stringValue s => .ret (some (.Text s))
          | _ => .panic "unreachable"
      | .Number =>
          match kind with
          | .numberValue n => .ret (some (.Number n))
          | _ => .panic "unreachable"
      | .Date =>
          match kind with
          | .numberValue n => .ret (some (.Date n))
          | _ => .panic "unreachable"
      | .Checkbox =>
          match kind with
          | .boolValue b => .ret (some (.Checkbox b))
          | _ => .panic "unreachable"
      | .Url =>
          match kind with
          | .stringValue s => .ret (some (.Url s))
          | _ => .panic "unreachable"
      | .Email =>
          match kind with
          | .stringValue s => .ret (some (.Email s))
          | _ => .panic "unreachable"
      | .Phone =>
          match kind with
          | .stringValue s => .ret (some (.Phone s))
          | _ => .panic "unreachable"
      | .Object _ =>
          match listTryFromProstP (ObjectId.try_from_prost cidValid) kind with
          | .panic m => .panic m
          | .ret (.error _) => .panic "unreachable"
          | .ret (.ok ids) => .ret (some (.Object (fetchObjects ids)))
      | .Select => .panic "not yet implemented"
      | .MultiSelect => .panic "not yet implemented"
      | .FileOrMedia => .panic "not yet implemented"

/-- Backend object store for the update path: the stored field bag per
object id.  Modelled from the spec: the backend is an external
collaborator persisting object details (§6). -/
structure ObjStore where
  objects : List (ObjectId × ProstStruct)

/-- Modelled from the spec: `Space::set_relation` is not under src/ (only
its caller `Object::set` is); per §6 it transmits the validated key/value
pair of a `RelationDetail` (via `into_raw_parts`, src/relation.rs lines
379-383) and the backend stores it into the field bag of the object. -/
def set_relation_m (st : ObjStore) (id : ObjectId) (detail : RelationDetail) :
    ObjStore :=
  ⟨st.objects.map (fun p =>
    if p.1 = id then
      (p.1, ⟨(removeField detail.key.key p.2.fields).2
              ++ [(detail.key.key, some detail.value.into_prost)]⟩)
    else p)⟩

/-- `Object::set` (src/object.rs lines 249-265): reads the previous value,
then validates the new value against the relation; a validation failure
returns the incompatibility error before the `set_relation` call runs, a
success transmits the update and returns the previous value. -/
def Object.set (cidValid : String → Bool) (fetchObjects : List ObjectId → List ObjectM)
    (st : ObjStore) (self : ObjectM) (key : Relation) (value : RelationValue) :
    PanicOr (Except StatusErr (Option RelationValue)) × ObjStore :=
  match Object.get cidValid fetchObjects self key with
  | .panic m => (.panic m, st)
  | .ret previous_value =>
      match key.validate value with
      | .error e => (.ret (.error (.incompatibleValue e.expected e.received)), st)
      | .ok detail => (.ret (.ok previous_value), set_relation_m st self.id detail)

/-- Claim C10: when the declared format of the relation is not a superset
of the inferred format of the value, `Object::set` leaves the backend
store untouched (no update call is issued) and — whenever the preceding
read does not panic — returns the incompatibility error carrying the
declared format as expected and the inferred format as received. -/
theorem C10_set_validates_before_update (cidValid : String → Bool)
    (fetchObjects : List ObjectId → List ObjectM) (st : ObjStore) (self : ObjectM)
    (key : Relation) (value : RelationValue)
    (h : key.format.is_superset value.format = false) :
    (Object.set cidValid fetchObjects st self key value).2 = st
    ∧ ((Object.get cidValid fetchObjects self key).isPanic = false →
        (Object.set cidValid fetchObjects st self key value).1
          = .ret (.error (.incompatibleValue key.format value.format))) := by
  have hval : key.validate value
      = .error { expected := key.format, received := value.format } := by
    simp [Relation.validate, h]
  cases hget : Object.get cidValid fetchObjects self key with
  | panic m =>
      constructor
      · simp [Object.set, hget]
      · intro hnp
        simp [PanicOr.isPanic] at hnp
  | ret previous_value =>
      constructor
      · simp [Object.set, hget, hval]
      · intro _
        simp [Object.set, hget, hval]

/-- Witness for C10: writing a Number value into a Text relation of a
concrete object leaves the store unchanged and yields the incompatibility
error. -/
theorem C10_set_validates_before_update_witness :
    (Object.set cidValid0 (fun _ => []) ⟨[]⟩ objA
        (Relation.mk ⟨⟨"bafyRelT"⟩⟩ "title" ⟨"titleKey"⟩ .Text) (.Number 7)).2 = ⟨[]⟩
    ∧ (Object.set cidValid0 (fun _ => []) ⟨[]⟩ objA
        (Relation.mk ⟨⟨"bafyRelT"⟩⟩ "title" ⟨"titleKey"⟩ .Text) (.Number 7)).1
      = .ret (.error (.incompatibleValue .Text .Number)) :=
  ⟨(C10_set_validates_before_update cidValid0 (fun _ => []) ⟨[]⟩ objA
      (Relation.mk ⟨⟨"bafyRelT"⟩⟩ "title" ⟨"titleKey"⟩ .Text) (.Number 7)
      (by decide)).1,
   (C10_set_validates_before_update cidValid0 (fun _ => []) ⟨[]⟩ objA
      (Relation.mk ⟨⟨"bafyRelT"⟩⟩ "title" ⟨"titleKey"⟩ .Text) (.Number 7)
      (by decide)).2 rfl⟩
